import Mathlib

/-!
Shallow embedding of `src/boat_and_rod/browser.py`, a Chrome-DevTools-Protocol
automation script, together with theorems settling the specification claims.

Effectful Python functions are modelled as pure Lean functions over explicit
environments: network replies, file contents and process outcomes are inputs;
prints, file writes and socket events are collected in the result.
-/

namespace ReaderBrowser

/-- Default debug port, browser.py line 54 (value used when the
BROWSER_PORT environment variable is unset). -/
def DEBUG_PORT : Nat := 9333

/-- Known Chrome-Web-Store ID for Reader View, browser.py line 57. -/
def CWS_EXT_ID : String := "ecabifbgmdmgdllomnfinbmaellmclnh"

/-- Chrome built-in extension IDs skipped during discovery,
browser.py lines 60–67. -/
def BUILTIN_EXT_IDS : List String :=
  [ "ghbmnnjooekpmoecnnnilnnbdlolhkhi"
  , "nmmhkkegccagdldgiimedpiccmgmieda"
  , "nkeimhogjdpnpccoofpliimaahmaaome"
  , "fignfifoniblkonapihmkfakmlgkbkcf"
  , "ahfgeienlihckogmohjhadlkjgocpleb"
  , "mhjfbmdgcfjbbpaeojofohoefgiehjai" ]

/-- Persistent paths touched by the script (lines 49–52 and the screenshot
path of `cmd_screenshot`). -/
inductive FsPath where
  | stateFile
  | extIdFile
  | screenshotFile (name : String)
deriving DecidableEq, Repr

/-- One file write: which path, what content. -/
structure FileWrite where
  path : FsPath
  content : String
deriving DecidableEq, Repr

/-! ## `cdp_send` (browser.py lines 96–109) -/

/-- An incoming WebSocket message as the script sees it after `json.loads`:
only the `id` field is inspected; the rest is kept abstract. -/
structure CdpMsg where
  id : Option Int
  body : String
deriving DecidableEq, Repr

/-- Outcome of one `ws.recv()` call: a parsed message, or a raised
exception (timeout, closed connection, `json.JSONDecodeError`). -/
inductive RecvResult where
  | ok (m : CdpMsg)
  | err
deriving DecidableEq, Repr

/-- A message `cdp_send` passes to `ws.send` (lines 100–103). -/
structure SentMsg where
  id : Nat
  method : String
  params : Option String
deriving DecidableEq, Repr

/-- Events on the WebSocket, in order: the `create_connection` attempt,
each `ws.send`, each `ws.recv`, and `ws.close()`. -/
inductive SockEv where
  | connect
  | send
  | recv
  | close
deriving DecidableEq, Repr

/-- Environment for one `cdp_send` call: whether `create_connection`
succeeds, whether `ws.send` succeeds, and the stream the socket yields. -/
structure WsEnv where
  connectOk : Bool
  sendOk : Bool
  incoming : List RecvResult
deriving Repr

/-- Does a parsed message satisfy `resp.get("id") == 1` (line 106)? -/
def isResp1 (m : CdpMsg) : Bool := m.id == some 1

/-- Model of the loop `while True: resp = json.loads(ws.recv()); if resp.get("id") == 1:
return resp` loop (lines 104–107), paired with its socket events.  An
exhausted stream stands for a recv that never returns a message and so
raises (the socket has a 10-second timeout). -/
def recvLoop : List RecvResult → List SockEv × Except Unit CdpMsg
  | [] => ([SockEv.recv], Except.error ())
  | RecvResult.err :: _ => ([SockEv.recv], Except.error ())
  | RecvResult.ok m :: rest =>
    if isResp1 m then ([SockEv.recv], Except.ok m)
    else
      let p := recvLoop rest
      (SockEv.recv :: p.1, p.2)

/-- Result of a `cdp_send` call: messages passed to `ws.send`, the socket
events in order, and the returned response (or the raised exception). -/
structure CdpRun where
  sent : List SentMsg
  events : List SockEv
  result : Except Unit CdpMsg
deriving Repr

/-- Model of `cdp_send(ws_url, method, params)` (lines 96–109).  The `try/finally`
guarantees `ws.close()` runs whenever the connection was created, on the
return path and on every exception path alike. -/
def cdp_send (method : String) (params : Option String) (env : WsEnv) : CdpRun :=
  if env.connectOk then
    if env.sendOk then
      let p := recvLoop env.incoming
      { sent := [⟨1, method, params⟩]
      , events := SockEv.connect :: SockEv.send :: p.1 ++ [SockEv.close]
      , result := p.2 }
    else
      { sent := [⟨1, method, params⟩]
      , events := [SockEv.connect, SockEv.send, SockEv.close]
      , result := Except.error () }
  else
    { sent := [], events := [SockEv.connect], result := Except.error () }

/-! ## The startup poll loop of `cmd_start` (browser.py lines 245–262) -/

/-- Accounting for the poll loop: how many times `get_browser_ws` was
called, how many `time.sleep(0.5)` calls ran, and whether a check
succeeded. -/
structure PollResult where
  checksUsed : Nat
  sleeps : Nat
  success : Bool
deriving DecidableEq, Repr

/-- Model of `for _ in range(30): if get_browser_ws(): ...; return;
time.sleep(0.5)` (lines 246–258): `checks i` is the outcome of the i-th
`get_browser_ws` call, the second argument the next check index, the third
the remaining iterations.  Each failed check is followed by one 0.5 s
sleep. -/
def pollLoop (checks : Nat → Bool) : Nat → Nat → PollResult
  | _, 0 => ⟨0, 0, false⟩
  | i, fuel+1 =>
    if checks i then ⟨1, 0, true⟩
    else
      let r := pollLoop checks (i+1) fuel
      ⟨r.checksUsed + 1, r.sleeps + 1, r.success⟩

/-- Outcome of the startup wait in `cmd_start`: the poll accounting,
whether `proc.kill()` ran, and the process exit status (0 = the command
returned normally). -/
structure StartPollOutcome where
  poll : PollResult
  killedChrome : Bool
  exitCode : Nat
deriving DecidableEq, Repr

/-- Model of the startup wait of `cmd_start` (lines 245–262): poll up to 30
times; on success return normally, otherwise print an error, kill the
launched process and `sys.exit(1)`. -/
def cmd_start_poll (checks : Nat → Bool) : StartPollOutcome :=
  let r := pollLoop checks 0 30
  if r.success then ⟨r, false, 0⟩ else ⟨r, true, 1⟩

/-! ## HTTP helpers and target selection (browser.py lines 87–129) -/

/-- Model of `cdp_http` (lines 87–93): one `urlopen` attempt; `URLError`
and `json.JSONDecodeError` yield `None`.  The second component counts the
HTTP requests made (always exactly one, there is no retry). -/
def cdp_http {α : Type} (resp : Except Unit α) : Option α × Nat :=
  match resp with
  | Except.ok v => (some v, 1)
  | Except.error _ => (none, 1)

/-- One entry of the `/json` target list, restricted to the fields the
script reads. -/
structure Target where
  type : Option String
  webSocketDebuggerUrl : Option String
deriving DecidableEq, Repr

/-- Python truthiness of an optional string: `None` and `""` are falsy. -/
def truthyStr : Option String → Bool
  | none => false
  | some s => s != ""

/-- Is this the first-page test `t.get("type") == "page"` (line 122)? -/
def isPage (t : Target) : Bool := t.type == some "page"

/-- The `for t in targets: if t.get("type") == "page": return
t.get("webSocketDebuggerUrl")` loop of `get_page_ws` (lines 121–124). -/
def firstPageWs : List Target → Option String
  | [] => none
  | t :: rest => if isPage t then t.webSocketDebuggerUrl else firstPageWs rest

/-- Model of `get_page_ws` (lines 118–124): `targets = cdp_http("/json") or []`,
then the linear scan. -/
def get_page_ws (resp : Except Unit (List Target)) : Option String :=
  firstPageWs (((cdp_http resp).1).getD [])

/-- Result of `require_page` (lines 150–156): the page WebSocket URL, or a
printed message followed by `sys.exit(1)`. -/
inductive PageReq where
  | ok (ws : String)
  | exit1 (msg : String)
deriving DecidableEq, Repr

/-- Model of `require_page` (lines 150–156); `if not ws` is Python
truthiness, so both `None` and the empty string exit. -/
def require_page (ws : Option String) : PageReq :=
  match ws with
  | none => PageReq.exit1 "No active page found."
  | some s => if s == "" then PageReq.exit1 "No active page found." else PageReq.ok s

/-- Message printed by `require_running` before `sys.exit(1)` (line 146). -/
def notRunningMsg : String := "Chrome is not running. Use: python browser.py start"

/-! ## State file and extension-ID discovery (browser.py lines 132–210) -/

/-- Content `save_state` writes: `json.dumps(\x7b"pid": pid, "port": DEBUG_PORT\x7d)`
with Python's default separators (line 134). -/
def stateJson (pid : Nat) : String :=
  "\x7b\"pid\": " ++ toString pid ++ ", \"port\": " ++ toString DEBUG_PORT ++ "\x7d"

/-- Model of `save_state` (lines 132–134): the file writes it performs. -/
def save_state (pid : Nat) : List FileWrite :=
  [⟨FsPath.stateFile, stateJson pid⟩]

/-- Python's `str.strip()`: drop leading and trailing whitespace. -/
def pyStrip (s : String) : String :=
  String.mk (((s.data.dropWhile Char.isWhitespace).reverse.dropWhile
    Char.isWhitespace).reverse)

/-- Python's `str.startswith(prefix)`, on the character lists. -/
def pyStartsWith (s pre : String) : Bool := pre.data.isPrefixOf s.data

/-- Python's `str.lower()`. -/
def pyLower (s : String) : String := String.mk (s.data.map Char.toLower)

/-- Does `needle` occur as a contiguous substring of the haystack
(Python's `needle in hay`)? -/
def hasSubstring (needle : List Char) : List Char → Bool
  | [] => needle.isEmpty
  | c :: t => needle.isPrefixOf (c :: t) || hasSubstring needle t

/-- Model of `get_ext_id` (lines 159–165); the argument is the content of
`EXT_ID_FILE`, `none` when the file does not exist. -/
def get_ext_id (cached : Option String) : Option String :=
  match cached with
  | none => none
  | some s =>
    if pyStrip s != "" && !(BUILTIN_EXT_IDS.contains (pyStrip s)) then
      some (pyStrip s)
    else none

/-- Extraction `url.split("/")[2]` for a URL starting with
`chrome-extension://` (line 180): the characters after the 19-character
scheme prefix, up to the next slash. -/
def extIdOfUrl (url : String) : String :=
  String.mk ((url.data.drop 19).takeWhile (fun c => c != '/'))

/-- The target scan of `discover_ext_id` (lines 177–184): the first
`chrome-extension://` target whose ID is not a built-in is taken; built-in
IDs are skipped and the loop continues. -/
def scanTargets : List String → Option String
  | [] => none
  | url :: rest =>
    if pyStartsWith url "chrome-extension://" then
      if BUILTIN_EXT_IDS.contains (extIdOfUrl url) then scanTargets rest
      else some (extIdOfUrl url)
    else scanTargets rest

/-- The fallback's title check (line 201): `title and "error" not in
title.lower()`. -/
def titleLooksOk (title : String) : Bool :=
  title != "" && !(hasSubstring "error".data (pyLower title).data)

/-- Environment for `discover_ext_id` (lines 168–210): the browser
WebSocket URL, the URLs of the `Target.getTargets` reply (`error` when that
`cdp_send` raises), and the fallback's page URL, `Page.navigate`
`errorText`, probe title, and whether some call in the fallback raises. -/
structure DiscoverEnv where
  browserWs : Option String
  targetUrls : Except Unit (List String)
  pageWs : Option String
  navErrorText : Option String
  titleValue : String
  fallbackRaises : Bool
deriving Repr

/-- The second `try` block of `discover_ext_id` (lines 188–208): navigate
a page to the known CWS extension URL and probe the document title; on
success cache and return `CWS_EXT_ID`, on any failure or exception return
`None`. -/
def discoverFallback (env : DiscoverEnv) : Option String × List FileWrite :=
  if env.fallbackRaises then (none, [])
  else
    match env.pageWs with
    | none => (none, [])
    | some pws =>
      if pws == "" then (none, [])
      else if truthyStr env.navErrorText then (none, [])
      else if titleLooksOk env.titleValue then
        (some CWS_EXT_ID, [⟨FsPath.extIdFile, CWS_EXT_ID⟩])
      else (none, [])

/-- Model of `discover_ext_id` (lines 168–210), returning the discovered
ID (if any) together with the file writes performed. -/
def discover_ext_id (env : DiscoverEnv) : Option String × List FileWrite :=
  if !truthyStr env.browserWs then (none, [])
  else
    match
      (match env.targetUrls with
       | Except.error _ => none
       | Except.ok urls => scanTargets urls) with
    | some extId => (some extId, [⟨FsPath.extIdFile, extId⟩])
    | none => discoverFallback env

/-! ## `cmd_stop` (browser.py lines 274–291) -/

/-- A parsed state file as `cmd_stop` sees it: whether the loaded JSON
value is truthy (a non-empty dict), and its `pid` entry. -/
structure PyState where
  truthy : Bool
  pid : Option Int
deriving DecidableEq, Repr

/-- Python truthiness of an optional integer: `None` and `0` are falsy. -/
def truthyInt : Option Int → Bool
  | none => false
  | some n => n != 0

/-- Observable outcome of `cmd_stop`: prints, the pid a `taskkill` was
attempted on, whether `STATE_FILE.unlink` ran, and the exit status. -/
structure StopOut where
  prints : List String
  killAttempt : Option Int
  unlinkedStateFile : Bool
  exitCode : Nat
deriving DecidableEq, Repr

/-- Model of `cmd_stop` (lines 274–291); `state` is `load_state()`'s result
(`none` when the state file does not exist) and `killRaises` says whether
the `subprocess.run(["taskkill", ...])` call raises.  The `unlink` runs
after the `try/except`, so it happens even when the kill fails. -/
def cmd_stop (state : Option PyState) (killRaises : Bool) : StopOut :=
  match state with
  | none => ⟨["No saved state. Nothing to stop."], none, false, 0⟩
  | some s =>
    if !s.truthy then ⟨["No saved state. Nothing to stop."], none, false, 0⟩
    else if truthyInt s.pid then
      let p := s.pid.getD 0
      if killRaises then
        ⟨["Could not stop Chrome: <exception>"], some p, true, 0⟩
      else
        ⟨["Chrome stopped (PID " ++ toString p ++ ")"], some p, true, 0⟩
    else
      ⟨[], none, true, 0⟩

/-! ## `cmd_open` (browser.py lines 327–337) -/

/-- URL normalisation at lines 329–330: prepend `https://` unless the
argument starts with one of the four prefixes. -/
def normalize_url (url : String) : String :=
  if pyStartsWith url "http" || pyStartsWith url "chrome"
      || pyStartsWith url "about" || pyStartsWith url "file" then url
  else "https://" ++ url

/-- Environment for `cmd_open`: `get_browser_ws()` and `get_page_ws()`
results and the `errorText` of the `Page.navigate` reply. -/
structure OpenEnv where
  browserWs : Option String
  pageWs : Option String
  navErrorText : Option String
deriving Repr

/-- Observable outcome of `cmd_open`: prints, exit status, and the URL
passed to `Page.navigate` (if navigation was reached). -/
structure OpenOut where
  prints : List String
  exitCode : Nat
  navigated : Option String
deriving DecidableEq, Repr

/-- Model of `cmd_open` (lines 327–337).  A navigation error is printed
but the function returns normally (process exit status 0). -/
def cmd_open (env : OpenEnv) (url : String) : OpenOut :=
  if !truthyStr env.browserWs then ⟨[notRunningMsg], 1, none⟩
  else
    let url2 := normalize_url url
    match require_page env.pageWs with
    | PageReq.exit1 m => ⟨[m], 1, none⟩
    | PageReq.ok _ =>
      if truthyStr env.navErrorText then
        ⟨["Navigation error: " ++ env.navErrorText.getD ""], 0, some url2⟩
      else
        ⟨["Navigated to " ++ url2], 0, some url2⟩

/-! ## `cmd_js`, `cmd_screenshot`, `cmd_click` (browser.py lines 340–402) -/

/-- Prints plus exit status, for commands with no other observable. -/
structure SimpleOut where
  prints : List String
  exitCode : Nat
deriving DecidableEq, Repr

/-- The `result` object of a `Runtime.evaluate` reply as `cmd_js` reads it:
its `type`, whether a `value` key is present, the printed rendering of that
value, and its `description`. -/
structure JsResultObj where
  type : Option String
  hasValue : Bool
  valueRepr : String
  description : Option String
deriving DecidableEq, Repr

/-- Environment for `cmd_js`: connection state, whether the reply carries
`exceptionDetails`, the exception description, and the result object. -/
structure JsEnv where
  browserWs : Option String
  pageWs : Option String
  hasException : Bool
  excDescription : Option String
  result : JsResultObj
deriving Repr

/-- Model of `cmd_js` (lines 340–364): a JavaScript exception prints
`JS Error: ...` and exits 1; otherwise the value (or description) is
printed and the command returns normally. -/
def cmd_js (env : JsEnv) : SimpleOut :=
  if !truthyStr env.browserWs then ⟨[notRunningMsg], 1⟩
  else
    match require_page env.pageWs with
    | PageReq.exit1 m => ⟨[m], 1⟩
    | PageReq.ok _ =>
      if env.hasException then
        ⟨["JS Error: " ++ env.excDescription.getD "Unknown error"], 1⟩
      else if env.result.type == some "undefined" then ⟨[], 0⟩
      else if env.result.hasValue then ⟨[env.result.valueRepr], 0⟩
      else if truthyStr env.result.description then
        ⟨[env.result.description.getD ""], 0⟩
      else ⟨[], 0⟩

/-- Environment for `cmd_screenshot`: connection state and the base64
`data` field of the `Page.captureScreenshot` reply (default `""`). -/
structure ShotEnv where
  browserWs : Option String
  pageWs : Option String
  data : String
deriving Repr

/-- Observable outcome of `cmd_screenshot`. -/
structure ShotOut where
  prints : List String
  exitCode : Nat
  writes : List FileWrite
deriving DecidableEq, Repr

/-- Model of `cmd_screenshot` (lines 366–378): empty `data` prints a
message and exits 1, otherwise the decoded image is written to the
requested file. -/
def cmd_screenshot (env : ShotEnv) (filename : String) : ShotOut :=
  if !truthyStr env.browserWs then ⟨[notRunningMsg], 1, []⟩
  else
    match require_page env.pageWs with
    | PageReq.exit1 m => ⟨[m], 1, []⟩
    | PageReq.ok _ =>
      if env.data != "" then
        ⟨["Screenshot saved: " ++ filename], 0,
          [⟨FsPath.screenshotFile filename, env.data⟩]⟩
      else ⟨["Failed to capture screenshot."], 1, []⟩

/-- Environment for `cmd_click`: connection state and the `value` field of
the `Runtime.evaluate` reply (default `""`). -/
structure ClickEnv where
  browserWs : Option String
  pageWs : Option String
  value : String
deriving Repr

/-- Model of `cmd_click` (lines 381–402): any value other than
`"clicked"` (e.g. `Element not found: ...`) is printed and the command
exits 1. -/
def cmd_click (env : ClickEnv) (selector : String) : SimpleOut :=
  if !truthyStr env.browserWs then ⟨[notRunningMsg], 1⟩
  else
    match require_page env.pageWs with
    | PageReq.exit1 m => ⟨[m], 1⟩
    | PageReq.ok _ =>
      if env.value == "clicked" then ⟨["Clicked: " ++ selector], 0⟩
      else ⟨[env.value], 1⟩

/-! ## `cmd_push` (browser.py lines 411–487) -/

/-- Environment for `cmd_push`: connection state, the cached extension-ID
file content, the discovery environment used when the cache misses,
existence of the three settings files, validity of `user-action.json`, and
the evaluate reply for the storage write. -/
structure PushEnv where
  browserWs : Option String
  cachedExtId : Option String
  discover : DiscoverEnv
  cssExists : Bool
  sidebarExists : Bool
  actionExists : Bool
  actionJsonValid : Bool
  pageWs : Option String
  hasException : Bool
  excDescription : Option String
  resultValue : String
deriving Repr

/-- Model of `cmd_push` (lines 411–487).  Missing settings files, invalid
JSON, a missing extension ID, no page, and a JS exception all exit 1; an
unexpected (non-`"OK"`) result is printed but the command returns
normally. -/
def cmd_push (env : PushEnv) : SimpleOut :=
  if !truthyStr env.browserWs then ⟨[notRunningMsg], 1⟩
  else
    let extId :=
      match get_ext_id env.cachedExtId with
      | some e => some e
      | none => (discover_ext_id env.discover).1
    match extId with
    | none => ⟨["Extension ID unknown. Run 'setup' to install Reader View first."], 1⟩
    | some _ =>
      if !env.cssExists then ⟨["Missing: my-settings/reader-view.css"], 1⟩
      else if !env.sidebarExists then ⟨["Missing: my-settings/frame-sidebar.css"], 1⟩
      else if !env.actionExists then ⟨["Missing: my-settings/user-action.json"], 1⟩
      else if !env.actionJsonValid then ⟨["Invalid JSON in user-action.json"], 1⟩
      else
        match require_page env.pageWs with
        | PageReq.exit1 m => ⟨["Opening options page...", m], 1⟩
        | PageReq.ok _ =>
          if env.hasException then
            ⟨["Opening options page...",
              "Error: " ++ env.excDescription.getD "Unknown error"], 1⟩
          else if env.resultValue == "OK" then
            ⟨["Opening options page...", "  user-css <- reader-view.css",
              "  top-css <- frame-sidebar.css", "  user-action <- user-action.json",
              "Settings pushed and saved!"], 0⟩
          else
            ⟨["Opening options page...", "Unexpected result: " ++ env.resultValue], 0⟩

/-! ## The command dispatcher `main` (browser.py lines 546–586) -/

/-- Argument arity markers of the `COMMANDS` table: 0, 1, and -1. -/
inductive NArgs where
  | zero
  | one
  | opt
deriving DecidableEq, Repr

/-- The `COMMANDS` table (lines 546–558): name, arity, usage hint. -/
def COMMANDS : List (String × NArgs × String) :=
  [ ("start", NArgs.zero, "")
  , ("setup", NArgs.zero, "")
  , ("stop", NArgs.zero, "")
  , ("status", NArgs.zero, "")
  , ("open", NArgs.one, "<url>")
  , ("js", NArgs.one, "<expression>")
  , ("screenshot", NArgs.opt, "[filename]")
  , ("click", NArgs.one, "<selector>")
  , ("wait", NArgs.opt, "[seconds]")
  , ("push", NArgs.zero, "")
  , ("import", NArgs.zero, "") ]

/-- Table lookup `COMMANDS[cmd_name]` (with `in` test). -/
def lookupCmd (name : String) : Option (NArgs × String) :=
  (COMMANDS.find? (fun c => c.1 == name)).map (fun c => c.2)

/-- What `main` does before (or instead of) running a handler. -/
inductive Invocation where
  | usageOnly
  | unknown (cmd : String)
  | missingArg (cmd : String)
  | run (cmd : String) (arg : Option String)
deriving DecidableEq, Repr

/-- Model of `main` (lines 561–586) over the full `sys.argv` (program name
included).  The second component is the dispatcher-level exit status: 1 for
an unknown command or a missing required argument, 0 when usage is printed
or a handler is invoked (the handler's own exit is modelled separately). -/
def mainDispatch (argv : List String) : Invocation × Nat :=
  match argv with
  | [] => (Invocation.usageOnly, 0)
  | [_] => (Invocation.usageOnly, 0)
  | _ :: cmd :: rest =>
    if cmd == "-h" || cmd == "--help" || cmd == "help" then (Invocation.usageOnly, 0)
    else
      match lookupCmd cmd with
      | none => (Invocation.unknown cmd, 1)
      | some (NArgs.zero, _) => (Invocation.run cmd none, 0)
      | some (NArgs.one, _) =>
        match rest with
        | [] => (Invocation.missingArg cmd, 1)
        | _ :: _ => (Invocation.run cmd (some (String.intercalate " " rest)), 0)
      | some (NArgs.opt, _) =>
        match rest with
        | [] => (Invocation.run cmd none, 0)
        | a :: _ => (Invocation.run cmd (some a), 0)

/-! ## Helper lemmas -/

/-- On an error-free stream, the loop returns exactly the first message
whose id is 1, and fails when there is none. -/
theorem recvLoop_ok_stream (msgs : List CdpMsg) :
    (recvLoop (msgs.map RecvResult.ok)).2 =
      (match msgs.find? isResp1 with
       | some m => Except.ok m
       | none => Except.error ()) := by
  induction msgs with
  | nil => rfl
  | cons m rest ih =>
    simp only [List.map_cons, recvLoop, List.find?]
    cases h : isResp1 m with
    | true => simp [h]
    | false => simpa [h] using ih

/-- Whatever the stream, any message the loop returns has id 1. -/
theorem recvLoop_result_id (stream : List RecvResult) (m : CdpMsg)
    (h : (recvLoop stream).2 = Except.ok m) : m.id = some 1 := by
  induction stream with
  | nil => simp [recvLoop] at h
  | cons r rest ih =>
    cases r with
    | err => simp [recvLoop] at h
    | ok m' =>
      by_cases h1 : isResp1 m'
      · simp [recvLoop, h1] at h
        subst h
        simpa [isResp1] using h1
      · simp only [recvLoop, if_neg h1] at h
        exact ih h

/-- Every socket event the receive loop produces is a `recv`. -/
theorem recvLoop_events_all_recv (stream : List RecvResult) :
    ∀ e ∈ (recvLoop stream).1, e = SockEv.recv := by
  induction stream with
  | nil => intro e he; simpa [recvLoop] using he
  | cons r rest ih =>
    intro e he
    cases r with
    | err => simpa [recvLoop] using he
    | ok m =>
      by_cases h1 : isResp1 m
      · simpa [recvLoop, h1] using he
      · simp only [recvLoop, if_neg h1, List.mem_cons] at he
        rcases he with rfl | he
        · rfl
        · exact ih e he

/-- The poll loop never runs more checks than it has iterations. -/
theorem pollLoop_checksUsed_le (checks : Nat → Bool) (fuel i : Nat) :
    (pollLoop checks i fuel).checksUsed ≤ fuel := by
  induction fuel generalizing i with
  | zero => simp [pollLoop]
  | succ n ih =>
    simp only [pollLoop]
    by_cases h : checks i
    · simp [h]
    · simpa [h] using Nat.succ_le_succ (ih (i+1))

/-- When every check in range fails, the loop uses all its iterations,
sleeps once after each failed check, and reports failure. -/
theorem pollLoop_all_fail (checks : Nat → Bool) (fuel i : Nat)
    (h : ∀ j, i ≤ j → j < i + fuel → checks j = false) :
    pollLoop checks i fuel = ⟨fuel, fuel, false⟩ := by
  induction fuel generalizing i with
  | zero => rfl
  | succ n ih =>
    have hi : checks i = false := h i (Nat.le_refl i) (by omega)
    simp only [pollLoop, hi, if_false, Bool.false_eq_true]
    rw [ih (i+1) (fun j hj1 hj2 => h j (by omega) (by omega))]

/-- Sleeps sit strictly between checks: one fewer sleep than checks on
success, one sleep per check on failure. -/
theorem pollLoop_sleep_count (checks : Nat → Bool) (fuel i : Nat) :
    ((pollLoop checks i fuel).success = true →
      (pollLoop checks i fuel).sleeps + 1 = (pollLoop checks i fuel).checksUsed) ∧
    ((pollLoop checks i fuel).success = false →
      (pollLoop checks i fuel).sleeps = (pollLoop checks i fuel).checksUsed) := by
  induction fuel generalizing i with
  | zero => simp [pollLoop]
  | succ n ih =>
    simp only [pollLoop]
    by_cases h : checks i
    · simp [h]
    · simpa [h] using
        ⟨fun hs => (ih (i+1)).1 hs, fun hs => (ih (i+1)).2 hs⟩


/-- Every `cdp_send` call makes exactly one `create_connection` attempt:
there is no reconnection or retry inside the function. -/
theorem cdp_send_one_connect (method : String) (params : Option String)
    (env : WsEnv) :
    (cdp_send method params env).events.count SockEv.connect = 1 := by
  rcases env with ⟨co, so, stream⟩
  cases co with
  | false => rfl
  | true =>
    cases so with
    | false => rfl
    | true =>
      have hmem : SockEv.connect ∉ (recvLoop stream).1 := by
        intro hm
        have := recvLoop_events_all_recv stream _ hm
        exact absurd this (by decide)
      simp [cdp_send, List.count_cons, List.count_append,
        List.count_eq_zero.mpr hmem]

/-! ## Claim theorems -/

/-- C2: `cdp_send` correlates responses by identifier.  It passes exactly
one message, with id 1, to `ws.send`; on an error-free incoming stream it
returns precisely the first message whose id equals 1 (all earlier
messages being skipped, and the call failing when no such message comes);
and any message it ever returns, on any stream, has id 1. -/
theorem cdp_send_correlates_by_id (method : String) (params : Option String)
    (msgs : List CdpMsg) (env : WsEnv) (m : CdpMsg) :
    (cdp_send method params ⟨true, true, msgs.map RecvResult.ok⟩).sent
        = [⟨1, method, params⟩] ∧
    (cdp_send method params ⟨true, true, msgs.map RecvResult.ok⟩).result
        = (match msgs.find? isResp1 with
           | some r => Except.ok r
           | none => Except.error ()) ∧
    ((cdp_send method params env).result = Except.ok m → m.id = some 1) := by
  refine ⟨rfl, ?_, ?_⟩
  · simpa [cdp_send] using recvLoop_ok_stream msgs
  · intro h
    rcases env with ⟨co, so, stream⟩
    cases co with
    | false => simp [cdp_send] at h
    | true =>
      cases so with
      | false => simp [cdp_send] at h
      | true =>
        simp only [cdp_send, if_pos] at h
        exact recvLoop_result_id stream m h

/-- Witness for C2: with an id-less event and an id-2 response ahead of it
in the stream, the id-1 response is the one returned. -/
theorem cdp_send_correlates_by_id_witness :
    (cdp_send "Runtime.evaluate" none
        ⟨true, true, [CdpMsg.mk none "event", CdpMsg.mk (some 2) "other",
          CdpMsg.mk (some 1) "resp", CdpMsg.mk (some 1) "late"].map RecvResult.ok⟩).sent
        = [⟨1, "Runtime.evaluate", none⟩] ∧
    (cdp_send "Runtime.evaluate" none
        ⟨true, true, [CdpMsg.mk none "event", CdpMsg.mk (some 2) "other",
          CdpMsg.mk (some 1) "resp", CdpMsg.mk (some 1) "late"].map RecvResult.ok⟩).result
        = Except.ok (CdpMsg.mk (some 1) "resp") ∧
    (CdpMsg.mk (some 1) "resp").id = some 1 := by
  have h := cdp_send_correlates_by_id "Runtime.evaluate" none
      [CdpMsg.mk none "event", CdpMsg.mk (some 2) "other",
        CdpMsg.mk (some 1) "resp", CdpMsg.mk (some 1) "late"]
      ⟨true, true, [CdpMsg.mk none "event", CdpMsg.mk (some 2) "other",
        CdpMsg.mk (some 1) "resp", CdpMsg.mk (some 1) "late"].map RecvResult.ok⟩
      (CdpMsg.mk (some 1) "resp")
  refine ⟨h.1, ?_, ?_⟩
  · rw [h.2.1]
    rfl
  · exact h.2.2 (by rw [h.2.1]; rfl)

/-- C5: whenever the WebSocket connection is created, `cdp_send` attempts
exactly one send, closes the connection exactly once, and the close is the
final socket action — on the return path and on every error path alike;
and each call opens exactly one connection (no pooling or reuse). -/
theorem cdp_send_fresh_connection_always_closed (method : String)
    (params : Option String) (env : WsEnv) (h : env.connectOk = true) :
    (cdp_send method params env).events.count SockEv.connect = 1 ∧
    (cdp_send method params env).sent.length = 1 ∧
    (cdp_send method params env).events.count SockEv.close = 1 ∧
    (cdp_send method params env).events.getLast? = some SockEv.close := by
  rcases env with ⟨co, so, stream⟩
  cases co with
  | false => exact absurd h (by simp)
  | true =>
    refine ⟨cdp_send_one_connect method params ⟨true, so, stream⟩, ?_⟩
    cases so with
    | false => exact ⟨rfl, rfl, rfl⟩
    | true =>
      have hmem : SockEv.close ∉ (recvLoop stream).1 := by
        intro hm
        have h2 := recvLoop_events_all_recv stream _ hm
        exact absurd h2 (by decide)
      refine ⟨rfl, ?_, ?_⟩
      · simp [cdp_send, List.count_cons, List.count_append,
          List.count_eq_zero.mpr hmem]
      · show ((SockEv.connect :: SockEv.send :: (recvLoop stream).1)
            ++ [SockEv.close]).getLast? = some SockEv.close
        exact List.getLast?_concat _

/-- Witness for C5: a run whose receive raises still sends once, closes
once, and closes last. -/
theorem cdp_send_fresh_connection_always_closed_witness :
    (cdp_send "Page.navigate" none ⟨true, true, [RecvResult.err]⟩).events.count
        SockEv.connect = 1 ∧
    (cdp_send "Page.navigate" none ⟨true, true, [RecvResult.err]⟩).sent.length = 1 ∧
    (cdp_send "Page.navigate" none ⟨true, true, [RecvResult.err]⟩).events.count
        SockEv.close = 1 ∧
    (cdp_send "Page.navigate" none ⟨true, true, [RecvResult.err]⟩).events.getLast?
        = some SockEv.close :=
  cdp_send_fresh_connection_always_closed "Page.navigate" none
    ⟨true, true, [RecvResult.err]⟩ rfl

/-- C3: the startup poll of `cmd_start` is fixed and bounded — at most 30
checks, one 0.5 s sleep separating consecutive checks, and when every
check fails the command kills the launched process and exits with status
1; and no other operation retries: each `cdp_send` makes exactly one
connection attempt and each `cdp_http` makes exactly one HTTP request. -/
theorem cmd_start_poll_bounded :
    (∀ checks : Nat → Bool, (cmd_start_poll checks).poll.checksUsed ≤ 30) ∧
    (∀ checks : Nat → Bool, (∀ i, i < 30 → checks i = false) →
      cmd_start_poll checks = ⟨⟨30, 30, false⟩, true, 1⟩) ∧
    (∀ checks : Nat → Bool, (cmd_start_poll checks).poll.success = true →
      (cmd_start_poll checks).poll.sleeps + 1
        = (cmd_start_poll checks).poll.checksUsed) ∧
    (∀ (method : String) (params : Option String) (env : WsEnv),
      (cdp_send method params env).events.count SockEv.connect = 1) ∧
    (∀ (α : Type) (resp : Except Unit α), (cdp_http resp).2 = 1) := by
  refine ⟨?_, ?_, ?_, fun m p env => cdp_send_one_connect m p env, ?_⟩
  · intro checks
    have h := pollLoop_checksUsed_le checks 30 0
    unfold cmd_start_poll
    by_cases hs : (pollLoop checks 0 30).success <;> simpa [hs] using h
  · intro checks h
    have hfail : pollLoop checks 0 30 = ⟨30, 30, false⟩ :=
      pollLoop_all_fail checks 30 0 (fun j _ hj2 => h j (by omega))
    simp [cmd_start_poll, hfail]
  · intro checks hs
    unfold cmd_start_poll at hs ⊢
    by_cases h30 : (pollLoop checks 0 30).success
    · simpa [h30] using (pollLoop_sleep_count checks 30 0).1 h30
    · simp [h30] at hs
  · intro α resp
    cases resp <;> rfl

/-- Witness for C3: when the endpoint is never reachable the poll runs all
30 checks, sleeps 30 times, kills Chrome and exits 1. -/
theorem cmd_start_poll_bounded_witness :
    (cmd_start_poll (fun _ => false)).poll.checksUsed ≤ 30 ∧
    cmd_start_poll (fun _ => false) = ⟨⟨30, 30, false⟩, true, 1⟩ :=
  ⟨cmd_start_poll_bounded.1 (fun _ => false),
   cmd_start_poll_bounded.2.1 (fun _ => false) (fun _ _ => rfl)⟩

/-- The linear page scan equals a first-match search followed by the field
projection. -/
theorem firstPageWs_eq_find (targets : List Target) :
    firstPageWs targets
      = (targets.find? isPage).bind (fun t => t.webSocketDebuggerUrl) := by
  induction targets with
  | nil => rfl
  | cons t rest ih =>
    by_cases h : isPage t = true
    · simp [firstPageWs, h, List.find?_cons_of_pos _ h]
    · simp only [firstPageWs, if_neg h, List.find?_cons_of_neg _ h]
      exact ih

/-- C6: `get_page_ws` is a single linear scan returning the
`webSocketDebuggerUrl` of the first target of type `page`; it returns
`none` when no page target exists, and `require_page` then prints the
no-page message and exits with status 1. -/
theorem get_page_ws_first_page (resp : Except Unit (List Target)) :
    get_page_ws resp
      = ((((cdp_http resp).1).getD []).find? isPage).bind
          (fun t => t.webSocketDebuggerUrl) ∧
    ((((cdp_http resp).1).getD []).find? isPage = none →
      get_page_ws resp = none) ∧
    require_page none = PageReq.exit1 "No active page found." := by
  refine ⟨firstPageWs_eq_find _, ?_, rfl⟩
  intro h
  rw [get_page_ws, firstPageWs_eq_find, h]
  rfl

/-- Witness for C6: a worker target is skipped, the first page target's
URL is returned; with no page target the scan yields `none` and
`require_page` exits. -/
theorem get_page_ws_first_page_witness :
    get_page_ws (Except.ok
        [⟨some "service_worker", some "ws://w0"⟩, ⟨some "page", some "ws://p1"⟩,
         ⟨some "page", some "ws://p2"⟩])
      = some "ws://p1" ∧
    get_page_ws (Except.ok [⟨some "service_worker", some "ws://w0"⟩]) = none ∧
    require_page none = PageReq.exit1 "No active page found." := by
  have h1 := get_page_ws_first_page (Except.ok
      [⟨some "service_worker", some "ws://w0"⟩, ⟨some "page", some "ws://p1"⟩,
       ⟨some "page", some "ws://p2"⟩])
  have h2 := get_page_ws_first_page (Except.ok [⟨some "service_worker", some "ws://w0"⟩])
  refine ⟨?_, h2.2.1 (by rfl), h1.2.2⟩
  rw [h1.1]
  rfl

/-- Help flags are not command names: when `cmd_name` is one of `-h`,
`--help`, `help`, the table lookup misses. -/
theorem lookupCmd_help_none (cmd : String)
    (h : (cmd == "-h" || cmd == "--help" || cmd == "help") = true) :
    lookupCmd cmd = none := by
  simp only [Bool.or_eq_true, beq_iff_eq] at h
  rcases h with (rfl | rfl) | rfl <;> rfl

/-- C7: `main` dispatches over the fixed table.  An unrecognised command
prints the unknown-command message plus usage and exits 1; no arguments or
a help flag prints usage and returns successfully; a one-argument command
with no argument exits 1 with a usage line, and otherwise receives all
remaining arguments joined by single spaces. -/
theorem mainDispatch_spec :
    (∀ (prog cmd : String) (rest : List String),
      (cmd == "-h" || cmd == "--help" || cmd == "help") = false →
      lookupCmd cmd = none →
      mainDispatch (prog :: cmd :: rest) = (Invocation.unknown cmd, 1)) ∧
    (∀ argv : List String, argv.length < 2 →
      mainDispatch argv = (Invocation.usageOnly, 0)) ∧
    (∀ (prog cmd : String) (rest : List String),
      (cmd == "-h" || cmd == "--help" || cmd == "help") = true →
      mainDispatch (prog :: cmd :: rest) = (Invocation.usageOnly, 0)) ∧
    (∀ (prog cmd u : String), lookupCmd cmd = some (NArgs.one, u) →
      mainDispatch [prog, cmd] = (Invocation.missingArg cmd, 1)) ∧
    (∀ (prog cmd u a : String) (rest : List String),
      lookupCmd cmd = some (NArgs.one, u) →
      mainDispatch (prog :: cmd :: a :: rest)
        = (Invocation.run cmd (some (String.intercalate " " (a :: rest))), 0)) := by
  have notHelp : ∀ (cmd : String) (p : NArgs × String), lookupCmd cmd = some p →
      (cmd == "-h" || cmd == "--help" || cmd == "help") = false := by
    intro cmd p hl
    cases hcase : (cmd == "-h" || cmd == "--help" || cmd == "help") with
    | false => rfl
    | true => rw [lookupCmd_help_none cmd hcase] at hl; exact Option.noConfusion hl
  refine ⟨?_, ?_, ?_, ?_, ?_⟩
  · intro prog cmd rest hh hl
    simp [mainDispatch, hh, hl]
  · intro argv hlen
    match argv with
    | [] => rfl
    | [_] => rfl
    | _ :: _ :: _ =>
      simp only [List.length_cons] at hlen
      exact absurd hlen (by omega)
  · intro prog cmd rest hh
    simp [mainDispatch, hh]
  · intro prog cmd u hl
    simp [mainDispatch, notHelp cmd _ hl, hl]
  · intro prog cmd u a rest hl
    simp [mainDispatch, notHelp cmd _ hl, hl]

/-- Witness for C7 at concrete argument vectors: an unknown command, the
bare invocation, a help flag, a missing required argument, and a js
expression joined from three argv words. -/
theorem mainDispatch_spec_witness :
    mainDispatch ["browser.py", "frobnicate"] = (Invocation.unknown "frobnicate", 1) ∧
    mainDispatch ["browser.py"] = (Invocation.usageOnly, 0) ∧
    mainDispatch ["browser.py", "--help", "x"] = (Invocation.usageOnly, 0) ∧
    mainDispatch ["browser.py", "open"] = (Invocation.missingArg "open", 1) ∧
    mainDispatch ["browser.py", "js", "1", "+", "2"]
      = (Invocation.run "js" (some "1 + 2"), 0) := by
  refine ⟨mainDispatch_spec.1 "browser.py" "frobnicate" [] rfl rfl,
    mainDispatch_spec.2.1 ["browser.py"] (by decide),
    mainDispatch_spec.2.2.1 "browser.py" "--help" ["x"] rfl,
    mainDispatch_spec.2.2.2.1 "browser.py" "open" "<url>" rfl, ?_⟩
  rw [mainDispatch_spec.2.2.2.2 "browser.py" "js" "<expression>" "1" ["+", "2"] rfl]
  rfl

/-- The target scan only returns IDs outside the built-in set. -/
theorem scanTargets_not_builtin (urls : List String) (extId : String)
    (h : scanTargets urls = some extId) :
    BUILTIN_EXT_IDS.contains extId = false := by
  induction urls with
  | nil => simp [scanTargets] at h
  | cons url rest ih =>
    by_cases h1 : pyStartsWith url "chrome-extension://" = true
    · by_cases h2 : BUILTIN_EXT_IDS.contains (extIdOfUrl url) = true
      · simp only [scanTargets, if_pos h1, if_pos h2] at h
        exact ih h
      · simp only [scanTargets, if_pos h1, if_neg h2] at h
        have h' : some (extIdOfUrl url) = some extId := h
        cases h'
        simpa using h2
    · simp only [scanTargets, if_neg h1] at h
      exact ih h

/-- The fallback either fails or returns exactly the pair of `CWS_EXT_ID`
and its single cache write. -/
theorem discoverFallback_cases (env : DiscoverEnv) :
    discoverFallback env
        = (some CWS_EXT_ID, [⟨FsPath.extIdFile, CWS_EXT_ID⟩]) ∨
    discoverFallback env = (none, []) := by
  unfold discoverFallback
  by_cases hr : env.fallbackRaises = true
  · simp [hr]
  · simp only [if_neg hr]
    cases env.pageWs with
    | none => simp
    | some pws =>
      by_cases he : (pws == "") = true
      · simp [he]
      · simp only [if_neg he]
        by_cases hn : truthyStr env.navErrorText = true
        · simp [hn]
        · simp only [if_neg hn]
          by_cases ht : titleLooksOk env.titleValue = true
          · simp [ht]
          · simp [ht]

/-- The fallback only ever returns `CWS_EXT_ID`, and writes it to the
cache file when it does. -/
theorem discoverFallback_some (env : DiscoverEnv) (extId : String)
    (h : (discoverFallback env).1 = some extId) :
    extId = CWS_EXT_ID ∧
    (discoverFallback env).2 = [⟨FsPath.extIdFile, CWS_EXT_ID⟩] := by
  rcases discoverFallback_cases env with heq | heq
  · rw [heq] at h
    have h' : some CWS_EXT_ID = some extId := h
    cases h'
    exact ⟨rfl, by rw [heq]⟩
  · rw [heq] at h
    exact Option.noConfusion h

/-- Writes of the fallback: nothing, or the single CWS cache write. -/
theorem discoverFallback_writes_shape (env : DiscoverEnv) :
    (discoverFallback env).2 = [] ∨
    ∃ c, (discoverFallback env).2 = [⟨FsPath.extIdFile, c⟩] := by
  rcases discoverFallback_cases env with heq | heq
  · exact Or.inr ⟨CWS_EXT_ID, by rw [heq]⟩
  · exact Or.inl (by rw [heq])

/-- The first discovery branch only produces IDs from the target scan. -/
theorem found_not_builtin (turls : Except Unit (List String)) (found : String)
    (h : (match turls with
          | Except.error _ => none
          | Except.ok urls => scanTargets urls) = some found) :
    BUILTIN_EXT_IDS.contains found = false := by
  cases turls with
  | error e => exact Option.noConfusion h
  | ok urls => exact scanTargets_not_builtin urls found h

/-- Shape of the writes of `discover_ext_id`: nothing, or exactly one
write of the returned ID to the extension-ID cache file. -/
theorem discover_writes_shape (env : DiscoverEnv) :
    (discover_ext_id env).2 = [] ∨
    ∃ c, (discover_ext_id env).2 = [⟨FsPath.extIdFile, c⟩] := by
  unfold discover_ext_id
  by_cases hb : truthyStr env.browserWs = true
  · simp only [hb, Bool.not_true, Bool.false_eq_true, if_false]
    cases hfound : (match env.targetUrls with
        | Except.error _ => none
        | Except.ok urls => scanTargets urls) with
    | some extId => exact Or.inr ⟨extId, rfl⟩
    | none => exact discoverFallback_writes_shape env
  · simp [hb]

/-- C8: neither `get_ext_id` nor `discover_ext_id` ever returns a Chrome
built-in extension ID, and every ID `discover_ext_id` returns is written
to the extension-ID cache file. -/
theorem ext_ids_never_builtin :
    (∀ (cached : Option String) (extId : String),
      get_ext_id cached = some extId →
      BUILTIN_EXT_IDS.contains extId = false) ∧
    (∀ (env : DiscoverEnv) (extId : String),
      (discover_ext_id env).1 = some extId →
      BUILTIN_EXT_IDS.contains extId = false ∧
      (⟨FsPath.extIdFile, extId⟩ : FileWrite) ∈ (discover_ext_id env).2) := by
  constructor
  · intro cached extId h
    cases cached with
    | none => simp [get_ext_id] at h
    | some s =>
      simp only [get_ext_id] at h
      by_cases hc : (pyStrip s != "" && !(BUILTIN_EXT_IDS.contains (pyStrip s))) = true
      · rw [if_pos hc] at h
        have h' : some (pyStrip s) = some extId := h
        cases h'
        have hand := (Bool.and_eq_true _ _).mp hc
        simpa using hand.2
      · rw [if_neg hc] at h
        exact Option.noConfusion h
  · intro env extId h
    unfold discover_ext_id at h ⊢
    by_cases hb : truthyStr env.browserWs = true
    · simp only [hb, Bool.not_true, Bool.false_eq_true, if_false] at h ⊢
      cases hfound : (match env.targetUrls with
          | Except.error _ => none
          | Except.ok urls => scanTargets urls) with
      | some found =>
        rw [hfound] at h
        have h' : some found = some extId := h
        cases h'
        exact ⟨found_not_builtin env.targetUrls extId hfound, by simp⟩
      | none =>
        rw [hfound] at h
        rcases discoverFallback_some env extId h with ⟨rfl, hw⟩
        refine ⟨by decide, ?_⟩
        show (⟨FsPath.extIdFile, CWS_EXT_ID⟩ : FileWrite) ∈ (discoverFallback env).2
        rw [hw]
        exact List.mem_singleton.mpr rfl
    · simp [hb] at h

/-- Witness for C8: a cached ID passes the filter, and discovery skips the
built-in PDF-viewer target and returns (and caches) the next one. -/
theorem ext_ids_never_builtin_witness :
    BUILTIN_EXT_IDS.contains "ecabifbg" = false ∧
    BUILTIN_EXT_IDS.contains "realid01" = false ∧
    (⟨FsPath.extIdFile, "realid01"⟩ : FileWrite) ∈
      (discover_ext_id ⟨some "ws://b",
        Except.ok ["chrome-extension://mhjfbmdgcfjbbpaeojofohoefgiehjai/x",
          "chrome-extension://realid01/bg.js"], none, none, "", false⟩).2 := by
  have h1 := ext_ids_never_builtin.1 (some " ecabifbg ") "ecabifbg" (by rfl)
  have h2 := ext_ids_never_builtin.2 ⟨some "ws://b",
      Except.ok ["chrome-extension://mhjfbmdgcfjbbpaeojofohoefgiehjai/x",
        "chrome-extension://realid01/bg.js"], none, none, "", false⟩
      "realid01" (by rfl)
  exact ⟨h1, h2.1, h2.2⟩

/-- A truthy optional string makes `require_page` succeed with its
value. -/
theorem require_page_of_truthy (ws : Option String)
    (h : truthyStr ws = true) : require_page ws = PageReq.ok (ws.getD "") := by
  cases ws with
  | none => simp [truthyStr] at h
  | some s =>
    simp only [truthyStr] at h
    have he : (s == "") = false := by simpa [bne] using h
    simp [require_page, he]

/-- C9: `cmd_open` normalises its URL argument — whenever Chrome is
running and a page exists, the URL passed to `Page.navigate` is the
argument with `https://` prepended when it starts with none of `http`,
`chrome`, `about`, `file`, and the argument unchanged otherwise. -/
theorem cmd_open_normalizes_url (env : OpenEnv) (url : String)
    (hb : truthyStr env.browserWs = true) (hp : truthyStr env.pageWs = true) :
    (cmd_open env url).navigated = some (normalize_url url) ∧
    ((pyStartsWith url "http" || pyStartsWith url "chrome"
        || pyStartsWith url "about" || pyStartsWith url "file") = false →
      normalize_url url = "https://" ++ url) ∧
    ((pyStartsWith url "http" || pyStartsWith url "chrome"
        || pyStartsWith url "about" || pyStartsWith url "file") = true →
      normalize_url url = url) := by
  refine ⟨?_, fun h => by simp [normalize_url, h], fun h => by simp [normalize_url, h]⟩
  unfold cmd_open
  rw [hb, require_page_of_truthy env.pageWs hp]
  by_cases hn : truthyStr env.navErrorText = true
  · simp [hn]
  · simp [hn]

/-- Witness for C9: `example.com` gains the scheme, `about:blank` is
passed through unchanged. -/
theorem cmd_open_normalizes_url_witness :
    (cmd_open ⟨some "ws://b", some "ws://p", none⟩ "example.com").navigated
      = some "https://example.com" ∧
    (cmd_open ⟨some "ws://b", some "ws://p", none⟩ "about:blank").navigated
      = some "about:blank" := by
  have h1 := cmd_open_normalizes_url ⟨some "ws://b", some "ws://p", none⟩
      "example.com" rfl rfl
  have h2 := cmd_open_normalizes_url ⟨some "ws://b", some "ws://p", none⟩
      "about:blank" rfl rfl
  constructor
  · rw [h1.1, h1.2.1 rfl]
    rfl
  · rw [h2.1, h2.2.2 rfl]

/-- C10: for every truthy saved state, `cmd_stop` returns normally and the
state file is unlinked — also when the `taskkill` raises; with no state
file it prints that there is nothing to stop and performs no kill and no
unlink. -/
theorem cmd_stop_unlinks_state (s : PyState) (killRaises : Bool)
    (h : s.truthy = true) :
    ((cmd_stop (some s) killRaises).unlinkedStateFile = true ∧
     (cmd_stop (some s) killRaises).exitCode = 0) ∧
    (∀ kr : Bool, cmd_stop none kr
        = ⟨["No saved state. Nothing to stop."], none, false, 0⟩) := by
  refine ⟨?_, fun kr => rfl⟩
  rcases s with ⟨st, pid⟩
  cases h
  by_cases hp : truthyInt pid = true <;>
    cases killRaises <;> simp [cmd_stop, hp]

/-- Witness for C10: a state with pid 4242 whose kill raises still has its
state file unlinked and exits 0. -/
theorem cmd_stop_unlinks_state_witness :
    ((cmd_stop (some ⟨true, some 4242⟩) true).unlinkedStateFile = true ∧
     (cmd_stop (some ⟨true, some 4242⟩) true).exitCode = 0) ∧
    (∀ kr : Bool, cmd_stop none kr
        = ⟨["No saved state. Nothing to stop."], none, false, 0⟩) :=
  cmd_stop_unlinks_state ⟨true, some 4242⟩ true rfl

/-- C1 (counterexample): the claim that nothing but the state file is
persisted is false — `discover_ext_id` writes the discovered extension ID
to the `.extension-id` cache file, a persistent file distinct from the
state file. -/
theorem discover_ext_id_caches_on_disk :
    (discover_ext_id ⟨some "ws://browser",
        Except.ok ["chrome-extension://abcdefgh/background.js"],
        none, none, "", false⟩).2
      = [⟨FsPath.extIdFile, "abcdefgh"⟩] ∧
    FsPath.extIdFile ≠ FsPath.stateFile := by
  exact ⟨rfl, by decide⟩

/-- C1 (amended): the persistent writes of the program are the one-line
state file written by `save_state`, the extension-ID cache file written by
`discover_ext_id`, and the user-requested screenshot file written by
`cmd_screenshot` — nothing else. -/
theorem persistent_writes_classified :
    (∀ pid : Nat, save_state pid = [⟨FsPath.stateFile, stateJson pid⟩]) ∧
    (∀ (env : DiscoverEnv) (w : FileWrite), w ∈ (discover_ext_id env).2 →
      w.path = FsPath.extIdFile) ∧
    (∀ (env : ShotEnv) (f : String) (w : FileWrite),
      w ∈ (cmd_screenshot env f).writes → w.path = FsPath.screenshotFile f) := by
  refine ⟨fun pid => rfl, ?_, ?_⟩
  · intro env w hw
    rcases discover_writes_shape env with hsh | ⟨c, hsh⟩
    · rw [hsh] at hw
      exact absurd hw (List.not_mem_nil w)
    · rw [hsh] at hw
      rw [List.mem_singleton.mp hw]
  · intro env f w hw
    unfold cmd_screenshot at hw
    by_cases hb : truthyStr env.browserWs = true
    · simp only [hb, Bool.not_true, Bool.false_eq_true, if_false] at hw
      cases hrp : require_page env.pageWs with
      | exit1 m =>
        rw [hrp] at hw
        exact absurd hw (List.not_mem_nil w)
      | ok ws =>
        rw [hrp] at hw
        by_cases hd : (env.data != "") = true
        · simp only [if_pos hd] at hw
          rw [List.mem_singleton.mp hw]
        · simp only [if_neg hd] at hw
          exact absurd hw (List.not_mem_nil w)
    · simp [hb] at hw

/-- Witness for the amended C1: a concrete pid and a concrete discovery
run, with the discovery write landing in the cache file. -/
theorem persistent_writes_classified_witness :
    save_state 4242 = [⟨FsPath.stateFile, stateJson 4242⟩] ∧
    (⟨FsPath.extIdFile, "abcdefgh"⟩ : FileWrite).path = FsPath.extIdFile :=
  ⟨persistent_writes_classified.1 4242,
   persistent_writes_classified.2.1
     ⟨some "ws://browser", Except.ok ["chrome-extension://abcdefgh/background.js"],
       none, none, "", false⟩
     ⟨FsPath.extIdFile, "abcdefgh"⟩ (by decide)⟩

/-- C4 (counterexample): not every failure path exits with status 1 — a
`Page.navigate` reply with an `errorText` makes `cmd_open` print a
navigation error and return normally (process exit status 0). -/
theorem cmd_open_swallows_navigation_error :
    cmd_open ⟨some "ws://browser", some "ws://page",
        some "net::ERR_NAME_NOT_RESOLVED"⟩ "https://bad.example"
      = ⟨["Navigation error: net::ERR_NAME_NOT_RESOLVED"], 0,
         some "https://bad.example"⟩ := rfl

/-- A falsy optional string makes `require_page` print and exit 1. -/
theorem require_page_of_falsy (ws : Option String)
    (h : truthyStr ws = false) :
    require_page ws = PageReq.exit1 "No active page found." := by
  cases ws with
  | none => rfl
  | some s =>
    simp only [truthyStr] at h
    have he : (s == "") = true := by simpa [bne] using h
    simp [require_page, he]

/-- C4 (amended): the enumerated failure paths — Chrome not running, no
active page, missing settings file, invalid JSON, JavaScript exception,
failed screenshot, element not found — print an error and exit with
status 1; however a navigation error in `cmd_open`, a failed `taskkill` in
`cmd_stop`, and a non-OK storage result in `cmd_push` are printed and the
command returns normally with status 0. -/
theorem enumerated_failure_paths_exit_one :
    (∀ (env : OpenEnv) (url : String), truthyStr env.browserWs = false →
      cmd_open env url = ⟨[notRunningMsg], 1, none⟩) ∧
    (∀ env : JsEnv, truthyStr env.browserWs = false →
      cmd_js env = ⟨[notRunningMsg], 1⟩) ∧
    (∀ env : JsEnv, truthyStr env.browserWs = true →
      truthyStr env.pageWs = false →
      cmd_js env = ⟨["No active page found."], 1⟩) ∧
    (∀ env : JsEnv, truthyStr env.browserWs = true →
      truthyStr env.pageWs = true → env.hasException = true →
      cmd_js env
        = ⟨["JS Error: " ++ env.excDescription.getD "Unknown error"], 1⟩) ∧
    (∀ (env : ShotEnv) (f : String), truthyStr env.browserWs = true →
      truthyStr env.pageWs = true → env.data = "" →
      cmd_screenshot env f = ⟨["Failed to capture screenshot."], 1, []⟩) ∧
    (∀ (env : ClickEnv) (sel : String), truthyStr env.browserWs = true →
      truthyStr env.pageWs = true → (env.value == "clicked") = false →
      cmd_click env sel = ⟨[env.value], 1⟩) ∧
    (∀ (env : PushEnv) (e : String), truthyStr env.browserWs = true →
      get_ext_id env.cachedExtId = some e → env.cssExists = false →
      cmd_push env = ⟨["Missing: my-settings/reader-view.css"], 1⟩) ∧
    (∀ (env : PushEnv) (e : String), truthyStr env.browserWs = true →
      get_ext_id env.cachedExtId = some e → env.cssExists = true →
      env.sidebarExists = true → env.actionExists = true →
      env.actionJsonValid = false →
      cmd_push env = ⟨["Invalid JSON in user-action.json"], 1⟩) ∧
    (∀ (env : OpenEnv) (url : String), truthyStr env.browserWs = true →
      truthyStr env.pageWs = true → truthyStr env.navErrorText = true →
      (cmd_open env url).exitCode = 0) ∧
    (∀ (s : PyState) (kr : Bool), s.truthy = true →
      (cmd_stop (some s) kr).exitCode = 0) ∧
    (∀ (env : PushEnv) (e : String), truthyStr env.browserWs = true →
      get_ext_id env.cachedExtId = some e → env.cssExists = true →
      env.sidebarExists = true → env.actionExists = true →
      env.actionJsonValid = true → truthyStr env.pageWs = true →
      env.hasException = false → (env.resultValue == "OK") = false →
      (cmd_push env).exitCode = 0) := by
  refine ⟨?_, ?_, ?_, ?_, ?_, ?_, ?_, ?_, ?_, ?_, ?_⟩
  · intro env url hb
    simp [cmd_open, hb]
  · intro env hb
    simp [cmd_js, hb]
  · intro env hb hp
    simp [cmd_js, hb, require_page_of_falsy env.pageWs hp]
  · intro env hb hp hexc
    simp [cmd_js, hb, require_page_of_truthy env.pageWs hp, hexc]
  · intro env f hb hp hd
    simp [cmd_screenshot, hb, require_page_of_truthy env.pageWs hp, hd]
  · intro env sel hb hp hv
    simp [cmd_click, hb, require_page_of_truthy env.pageWs hp, hv]
  · intro env e hb hge hc
    simp [cmd_push, hb, hge, hc]
  · intro env e hb hge hcss hsb hact hjson
    simp [cmd_push, hb, hge, hcss, hsb, hact, hjson]
  · intro env url hb hp hn
    simp [cmd_open, hb, require_page_of_truthy env.pageWs hp, hn]
  · intro s kr h
    rcases s with ⟨st, pid⟩
    cases h
    by_cases hp : truthyInt pid = true <;>
      cases kr <;> simp [cmd_stop, hp]
  · intro env e hb hge hcss hsb hact hjson hp hexc hval
    simp [cmd_push, hb, hge, hcss, hsb, hact, hjson,
      require_page_of_truthy env.pageWs hp, hexc, hval]

/-- Witness for the amended C4: a JS exception, an empty screenshot, a
missed selector each exit 1; a navigation error exits 0. -/
theorem enumerated_failure_paths_exit_one_witness :
    cmd_js ⟨some "ws://b", some "ws://p", true,
        some "ReferenceError: x is not defined", ⟨none, false, "", none⟩⟩
      = ⟨["JS Error: ReferenceError: x is not defined"], 1⟩ ∧
    cmd_screenshot ⟨some "ws://b", some "ws://p", ""⟩ "screenshot.png"
      = ⟨["Failed to capture screenshot."], 1, []⟩ ∧
    cmd_click ⟨some "ws://b", some "ws://p", "Element not found: #x"⟩ "#x"
      = ⟨["Element not found: #x"], 1⟩ ∧
    (cmd_open ⟨some "ws://b", some "ws://p", some "net::ERR_ABORTED"⟩
        "x.test").exitCode = 0 :=
  ⟨enumerated_failure_paths_exit_one.2.2.2.1 _ rfl rfl rfl,
   enumerated_failure_paths_exit_one.2.2.2.2.1 _ "screenshot.png" rfl rfl rfl,
   enumerated_failure_paths_exit_one.2.2.2.2.2.1 _ "#x" rfl rfl rfl,
   enumerated_failure_paths_exit_one.2.2.2.2.2.2.2.2.1 _ "x.test" rfl rfl rfl⟩

end ReaderBrowser
